import Mathlib

/-!
Shallow embedding of `server.js` of the SelfieBackend repository.

The server exposes four endpoints; the claims concern
`POST /generateMockups`, `POST /uploadResult` and `POST /upload`, plus
the delegated-provider polling variant described only in the spec.

External effects (node-fetch, sharp resize/composite, the Cloudinary
upload stream, uuid generation) are modelled by an environment of
oracle functions; `Except Unit` models a rejected promise (a thrown
exception reaching the enclosing `try/catch`).
-/

namespace SelfieBackend

/-- A node-fetch response: `ok` mirrors `response.ok` (2xx status);
`buffer` mirrors the `response.buffer()` promise, which may itself
reject.  A transport error (the `fetch` promise itself rejecting) is
modelled by the environment returning `Except.error` for the URL. -/
structure FetchResponse where
  ok : Bool
  buffer : Except Unit (List Nat)

/-- The effectful collaborators of the handlers.
`fetch` is node-fetch; `resize b w h` is `sharp(b).resize(w, h).toBuffer()`;
`composite base overlay top left` is
`sharp(base).composite([{input: overlay, top, left}]).toBuffer()`;
`upload bytes folder publicId` is `uploadToCloudinary`, resolving to the
`secure_url`; `uuid n` is the n-th `uuidv4()` drawn during the request. -/
structure Env where
  fetch : String → Except Unit FetchResponse
  resize : List Nat → Nat → Nat → Except Unit (List Nat)
  composite : List Nat → List Nat → Nat → Nat → Except Unit (List Nat)
  upload : List Nat → String → String → Except Unit String
  uuid : Nat → String

/-- One entry of the `products` array of a `/generateMockups` body
(`const { id, name, baseImageUrl } = product`). -/
structure ProductRequest where
  id : Nat
  name : String
  baseImageUrl : String
deriving DecidableEq

/-- One element pushed onto `mockupUrls`. -/
structure MockupResult where
  productId : Nat
  productName : String
  mockupImageUrl : String
deriving DecidableEq

/-- Placement entry of the `overlayConfig` table. -/
structure OverlayRule where
  x : Nat
  y : Nat
  width : Nat
  height : Nat
deriving DecidableEq

/-- The static `overlayConfig` object literal of the handler
(`server.js` lines 201-209), keyed by product name. -/
def overlayConfig : String → Option OverlayRule
  | "T-Shirt" => some ⟨100, 150, 300, 300⟩
  | "Mug" => some ⟨50, 50, 200, 200⟩
  | "Phone Case" => some ⟨80, 100, 240, 240⟩
  | "Poster" => some ⟨150, 200, 500, 500⟩
  | "Hoodie" => some ⟨100, 150, 300, 300⟩
  | "Tote Bag" => some ⟨80, 100, 240, 240⟩
  | _ => none

/-- Why a given `fetch` call was made: the single fetch of
`resultImageUrl` before the loop, or a per-product `baseImageUrl`
fetch inside the loop. -/
inductive FetchPurpose
  | result
  | base
deriving DecidableEq

/-- Outcome of one iteration of the `for (const product of products)`
loop.  `thrown = true` records an exception escaping the iteration
(there is no try/catch inside the loop, so it propagates to the
handler-level catch).  `result` is the element pushed onto
`mockupUrls`, if any; `log` records the `fetch` calls the iteration
made; `ctr` is the uuid counter after the iteration. -/
structure StepOut where
  thrown : Bool
  result : Option MockupResult
  log : List (FetchPurpose × String)
  ctr : Nat
deriving DecidableEq

/-- One iteration of the product loop (`server.js` lines 221-265):
look up `overlayConfig[name]` (missing → `continue`), fetch
`baseImageUrl` (`!response.ok` → `continue`; a rejected promise
throws), `sharp` resize of the shared swapped buffer, `sharp`
composite at `{top: y, left: x}`, and the Cloudinary upload under
`mockups/<uuid>`; the `path.parse` of `mockups/<uuid>` yields the
uuid itself as the public id. -/
def processProduct (env : Env) (swapped : List Nat) (p : ProductRequest)
    (ctr : Nat) : StepOut :=
  match overlayConfig p.name with
  | none => ⟨false, none, [], ctr⟩
  | some cfg =>
    match env.fetch p.baseImageUrl with
    | .error _ => ⟨true, none, [(.base, p.baseImageUrl)], ctr⟩
    | .ok resp =>
      if !resp.ok then ⟨false, none, [(.base, p.baseImageUrl)], ctr⟩
      else
        match resp.buffer with
        | .error _ => ⟨true, none, [(.base, p.baseImageUrl)], ctr⟩
        | .ok baseBytes =>
          match env.resize swapped cfg.width cfg.height with
          | .error _ => ⟨true, none, [(.base, p.baseImageUrl)], ctr⟩
          | .ok resized =>
            match env.composite baseBytes resized cfg.y cfg.x with
            | .error _ => ⟨true, none, [(.base, p.baseImageUrl)], ctr⟩
            | .ok comp =>
              match env.upload comp "mockups" (env.uuid ctr) with
              | .error _ => ⟨true, none, [(.base, p.baseImageUrl)], ctr + 1⟩
              | .ok url =>
                ⟨false, some ⟨p.id, p.name, url⟩,
                  [(.base, p.baseImageUrl)], ctr + 1⟩

/-- Accumulated outcome of the whole product loop. -/
structure RunOut where
  thrown : Bool
  results : List MockupResult
  log : List (FetchPurpose × String)
  ctr : Nat
deriving DecidableEq

/-- The sequential `for (const product of products)` loop: iterations
run in input order; the first exception aborts the loop (and, upstream,
the whole request). -/
def runProducts (env : Env) (swapped : List Nat) :
    List ProductRequest → Nat → RunOut
  | [], ctr => ⟨false, [], [], ctr⟩
  | p :: ps, ctr =>
    let s := processProduct env swapped p ctr
    if s.thrown then ⟨true, [], s.log, s.ctr⟩
    else
      let r := runProducts env swapped ps s.ctr
      ⟨r.thrown, s.result.toList ++ r.results, s.log ++ r.log, r.ctr⟩

/-- The parsed body of a `/generateMockups` request.  `none` for
`products` covers both an absent field and a non-array value (the
handler rejects either via `!products || !Array.isArray(products)`);
an empty string for `resultImageUrl` is falsy in JavaScript and is
likewise rejected. -/
structure GenReq where
  resultImageUrl : Option String
  products : Option (List ProductRequest)
deriving DecidableEq

/-- The observable outcome of `/generateMockups`: HTTP status, the
`mockupUrls` field of a 200 body (`none` on the 400/500 responses),
and the sequence of `fetch` calls the handler performed. -/
structure GenOutcome where
  status : Nat
  mockupUrls : Option (List MockupResult)
  fetchLog : List (FetchPurpose × String)
deriving DecidableEq

/-- The `POST /generateMockups` handler (`server.js` lines 192-276):
validate `resultImageUrl` and `products`, fetch the swapped image once
before the loop, run the loop, and answer 200 with the accumulated
`mockupUrls`.  An exception anywhere inside the `try` is caught by the
handler-level catch, which answers 500. -/
def generateMockups (env : Env) (req : GenReq) : GenOutcome :=
  match req.resultImageUrl, req.products with
  | some url, some products =>
    if url == "" then ⟨400, none, []⟩
    else
      match env.fetch url with
      | .error _ => ⟨500, none, [(.result, url)]⟩
      | .ok resp =>
        if !resp.ok then ⟨400, none, [(.result, url)]⟩
        else
          match resp.buffer with
          | .error _ => ⟨500, none, [(.result, url)]⟩
          | .ok swapped =>
            let r := runProducts env swapped products 0
            if r.thrown then ⟨500, none, (.result, url) :: r.log⟩
            else ⟨200, some r.results, (.result, url) :: r.log⟩
  | _, _ => ⟨400, none, []⟩

/-- The observable outcome of `/uploadResult`: HTTP status and the
`resultImageUrl` field of a 200 body. -/
structure UploadResultOutcome where
  status : Nat
  resultImageUrl : Option String
deriving DecidableEq

/-- The `POST /uploadResult` handler (`server.js` lines 157-189):
validate `resultUrl`, fetch it (`!response.ok` → 400), buffer the
bytes, and upload them to Cloudinary under `result_images/<uuid>`.
A rejected promise anywhere inside the `try` — a fetch transport
error, a `buffer()` failure, or a Cloudinary error — is caught by the
handler-level catch, which answers 500. -/
def uploadResult (env : Env) (resultUrl : Option String) :
    UploadResultOutcome :=
  match resultUrl with
  | none => ⟨400, none⟩
  | some url =>
    if url == "" then ⟨400, none⟩
    else
      match env.fetch url with
      | .error _ => ⟨500, none⟩
      | .ok resp =>
        if !resp.ok then ⟨400, none⟩
        else
          match resp.buffer with
          | .error _ => ⟨500, none⟩
          | .ok buf =>
            match env.upload buf "result_images" (env.uuid 0) with
            | .error _ => ⟨500, none⟩
            | .ok u => ⟨200, some u⟩

/-- One object persisted in the blob store (Cloudinary), identified by
folder and public id. -/
structure BlobEntry where
  folder : String
  publicId : String
  bytes : List Nat
deriving DecidableEq

/-- A multipart file buffered in memory by multer. -/
structure UploadFile where
  bytes : List Nat
deriving DecidableEq

/-- Environment of the `/upload` handler: the Cloudinary upload
outcome per (folder, publicId, bytes), and the two uuids drawn for
the target and swap public ids. -/
structure UploadEnv where
  upload : String → String → List Nat → Except Unit String
  uuidTarget : String
  uuidSwap : String

/-- Cloudinary upload as a blob-store state transition: on success
the entry is persisted and the secure url returned; on failure the
store is unchanged. -/
def uploadToStore (env : UploadEnv) (store : List BlobEntry)
    (folder pid : String) (bytes : List Nat) :
    Except Unit (String × List BlobEntry) :=
  match env.upload folder pid bytes with
  | .error e => .error e
  | .ok url => .ok (url, store ++ [⟨folder, pid, bytes⟩])

/-- The observable outcome of `/upload`: HTTP status, the two url
fields of a 200 body, and the blob store after the request. -/
structure UploadBothOutcome where
  status : Nat
  targetImageUrl : Option String
  swapImageUrl : Option String
  store : List BlobEntry
deriving DecidableEq

/-- The `POST /upload` handler (`server.js` lines 91-126): require
both files, upload the target image to `target_images/<uuid>` first,
then the swap image to `swap_images/<uuid>`; any Cloudinary rejection
is caught by the handler-level catch, which answers 500 — with no
rollback of uploads that already succeeded. -/
def uploadBoth (env : UploadEnv) (target swap : Option UploadFile)
    (store : List BlobEntry) : UploadBothOutcome :=
  match target, swap with
  | some t, some s =>
    match uploadToStore env store "target_images" env.uuidTarget t.bytes with
    | .error _ => ⟨500, none, none, store⟩
    | .ok (tu, store1) =>
      match uploadToStore env store1 "swap_images" env.uuidSwap s.bytes with
      | .error _ => ⟨500, none, none, store1⟩
      | .ok (su, store2) => ⟨200, some tu, some su, store2⟩
  | _, _ => ⟨400, none, none, store⟩

/-- Modelled from the spec: status of a RenderTask of the
delegated-provider variant (spec 4.3), which is not present in the
repository's source — only the spec describes the External Mockup
Provider Client. -/
inductive TaskStatus
  | pending
  | success (resultUrl : String)
  | error
deriving DecidableEq

/-- Modelled from the spec: the fixed poll interval, "2 seconds". -/
def pollIntervalMs : Nat := 2000

/-- Modelled from the spec: the fixed attempt ceiling, "10 attempts". -/
def maxPollAttempts : Nat := 10

/-- Modelled from the spec: the bounded poll loop of the
delegated-provider variant.  `poll i` is the provider's answer to the
i-th status poll; each attempt waits the fixed interval and polls
once.  Terminal `success` yields the result url, terminal `error`
fails the task, and exhausting the attempt budget without a terminal
state fails it too.  Returns (result, attempts used, total wait in
milliseconds). -/
def pollLoop (poll : Nat → TaskStatus) :
    Nat → Nat → Option String × Nat × Nat
  | 0, _ => (none, 0, 0)
  | fuel + 1, i =>
    match poll i with
    | .success u => (some u, 1, pollIntervalMs)
    | .error => (none, 1, pollIntervalMs)
    | .pending =>
      let r := pollLoop poll fuel (i + 1)
      (r.1, r.2.1 + 1, r.2.2 + pollIntervalMs)

/-- Modelled from the spec: a product descriptor of the delegated
variant (no `baseImageUrl`; the provider supplies base imagery). -/
structure DelegatedProduct where
  id : Nat
  name : String
deriving DecidableEq

/-- Modelled from the spec: the per-product outcome of the delegated
variant — submit a render task and drive the poll loop to completion
or attempt exhaustion.  `poll name i` is the provider's status answer
for the product's task at poll i. -/
def renderOutcome (poll : String → Nat → TaskStatus)
    (p : DelegatedProduct) : Option String :=
  (pollLoop (poll p.name) maxPollAttempts 0).1

/-- Modelled from the spec: the delegated orchestrator waits for all
per-product submit+poll sequences to settle, "then filters out
failed/null entries before returning" — a failed product contributes
nothing and never fails the batch. -/
def delegatedGenerateMockups (poll : String → Nat → TaskStatus)
    (products : List DelegatedProduct) : List (Nat × String) :=
  products.filterMap fun p => (renderOutcome poll p).map fun u => (p.id, u)

/-! ### Concrete environments used as test inputs -/

/-- An environment in which every remote call succeeds. -/
def envAllOk : Env where
  fetch := fun u => .ok ⟨true, .ok [u.length]⟩
  resize := fun b w h => .ok (w :: h :: b)
  composite := fun b o t l => .ok (t :: l :: (b ++ o))
  upload := fun _ f pid => .ok ("https://res.cloudinary.com/" ++ f ++ "/" ++ pid ++ ".jpg")
  uuid := fun n => "uuid" ++ toString n

/-- Like `envAllOk`, except the fetch of `https://x/mug.jpg` rejects
with a transport error. -/
def envMugFetchThrows : Env where
  fetch := fun u =>
    if u == "https://x/mug.jpg" then .error ()
    else .ok ⟨true, .ok [u.length]⟩
  resize := envAllOk.resize
  composite := envAllOk.composite
  upload := envAllOk.upload
  uuid := envAllOk.uuid

/-- Like `envAllOk`, except every sharp resize rejects — the shared
swapped buffer is not a decodable image. -/
def envResizeThrows : Env where
  fetch := envAllOk.fetch
  resize := fun _ _ _ => .error ()
  composite := envAllOk.composite
  upload := envAllOk.upload
  uuid := envAllOk.uuid

/-- An environment in which every fetch rejects with a transport
error. -/
def envFetchThrows : Env where
  fetch := fun _ => .error ()
  resize := envAllOk.resize
  composite := envAllOk.composite
  upload := envAllOk.upload
  uuid := envAllOk.uuid

/-- A `/upload` environment in which the target upload succeeds and
the swap upload fails. -/
def envSwapUploadFails : UploadEnv where
  upload := fun f pid _ =>
    if f == "swap_images" then .error ()
    else .ok ("https://res.cloudinary.com/" ++ f ++ "/" ++ pid ++ ".jpg")
  uuidTarget := "tid"
  uuidSwap := "sid"

/-- Like `envAllOk`, except the fetch of `https://x/mug.jpg` answers
with a non-2xx response. -/
def envMug404 : Env where
  fetch := fun u =>
    if u == "https://x/mug.jpg" then .ok ⟨false, .ok []⟩
    else .ok ⟨true, .ok [u.length]⟩
  resize := envAllOk.resize
  composite := envAllOk.composite
  upload := envAllOk.upload
  uuid := envAllOk.uuid

/-! ### Helper lemmas about the product loop -/

/-- A product whose name has no `overlayConfig` entry hits `continue`
before any effect: no fetch, no result, no exception, uuid counter
untouched. -/
theorem processProduct_config_none (env : Env) (sw : List Nat)
    (p : ProductRequest) (ctr : Nat) (h : overlayConfig p.name = none) :
    processProduct env sw p ctr = ⟨false, none, [], ctr⟩ := by
  unfold processProduct
  rw [h]

/-- Removing a product with no `overlayConfig` entry from anywhere in
the list leaves the whole loop outcome unchanged. -/
theorem runProducts_middle_skip (env : Env) (u : ProductRequest)
    (h : overlayConfig u.name = none) :
    ∀ (sw : List Nat) (l1 l2 : List ProductRequest) (ctr : Nat),
      runProducts env sw (l1 ++ u :: l2) ctr =
        runProducts env sw (l1 ++ l2) ctr := by
  intro sw l1
  induction l1 with
  | nil =>
    intro l2 ctr
    simp [runProducts, processProduct_config_none env sw u ctr h]
  | cons p ps ih =>
    intro l2 ctr
    simp only [List.cons_append, runProducts, List.append_eq, ih]

/-- A product whose base-image fetch answers non-2xx hits `continue`
after that single fetch: no result, no exception, counter untouched. -/
theorem processProduct_base_nonok (env : Env) (sw : List Nat)
    (u : ProductRequest) (ctr : Nat) (cfg : OverlayRule)
    (resp : FetchResponse) (hc : overlayConfig u.name = some cfg)
    (hf : env.fetch u.baseImageUrl = .ok resp) (hok : resp.ok = false) :
    processProduct env sw u ctr =
      ⟨false, none, [(FetchPurpose.base, u.baseImageUrl)], ctr⟩ := by
  unfold processProduct
  rw [hc, hf]
  simp [hok]

/-- Removing a product whose base-image fetch answers non-2xx changes
only the fetch log: thrown flag, results and counter are those of the
loop without it. -/
theorem runProducts_middle_nonok (env : Env) (u : ProductRequest)
    (cfg : OverlayRule) (resp : FetchResponse)
    (hc : overlayConfig u.name = some cfg)
    (hf : env.fetch u.baseImageUrl = .ok resp) (hok : resp.ok = false) :
    ∀ (sw : List Nat) (l1 l2 : List ProductRequest) (ctr : Nat),
      (runProducts env sw (l1 ++ u :: l2) ctr).thrown =
        (runProducts env sw (l1 ++ l2) ctr).thrown ∧
      (runProducts env sw (l1 ++ u :: l2) ctr).results =
        (runProducts env sw (l1 ++ l2) ctr).results ∧
      (runProducts env sw (l1 ++ u :: l2) ctr).ctr =
        (runProducts env sw (l1 ++ l2) ctr).ctr := by
  intro sw l1
  induction l1 with
  | nil =>
    intro l2 ctr
    simp [runProducts, processProduct_base_nonok env sw u ctr cfg resp hc hf hok]
  | cons p ps ih =>
    intro l2 ctr
    simp only [List.cons_append, runProducts]
    by_cases hth : (processProduct env sw p ctr).thrown <;>
      simp [hth, ih]

/-- Every fetch a loop iteration performs is a base-image fetch. -/
theorem processProduct_log_base (env : Env) (sw : List Nat)
    (p : ProductRequest) (ctr : Nat) :
    ∀ e ∈ (processProduct env sw p ctr).log, e.1 = FetchPurpose.base := by
  unfold processProduct
  repeat' split
  all_goals simp

/-- Every fetch the whole loop performs is a base-image fetch. -/
theorem runProducts_log_base (env : Env) (sw : List Nat) :
    ∀ (ps : List ProductRequest) (ctr : Nat),
      ∀ e ∈ (runProducts env sw ps ctr).log, e.1 = FetchPurpose.base := by
  intro ps
  induction ps with
  | nil => intro ctr e he; simp [runProducts] at he
  | cons p ps ih =>
    intro ctr e he
    simp only [runProducts] at he
    by_cases hth : (processProduct env sw p ctr).thrown
    · rw [if_pos hth] at he
      exact processProduct_log_base env sw p ctr e he
    · rw [if_neg hth] at he
      rcases List.mem_append.mp he with h1 | h2
      · exact processProduct_log_base env sw p ctr e h1
      · exact ih _ e h2

/-- A loop iteration either pushes nothing, or pushes a record whose
`productId` and `productName` are exactly the iterated product's `id`
and `name`. -/
theorem processProduct_result_shape (env : Env) (sw : List Nat)
    (p : ProductRequest) (ctr : Nat) :
    (processProduct env sw p ctr).result = none ∨
    ∃ url, (processProduct env sw p ctr).result =
      some ⟨p.id, p.name, url⟩ := by
  unfold processProduct
  repeat' split
  all_goals simp

/-- Every record the loop accumulates carries the `id` and `name` of
some product of the input list. -/
theorem runProducts_mem (env : Env) (sw : List Nat) :
    ∀ (ps : List ProductRequest) (ctr : Nat) (r : MockupResult),
      r ∈ (runProducts env sw ps ctr).results →
      ∃ p ∈ ps, r.productId = p.id ∧ r.productName = p.name := by
  intro ps
  induction ps with
  | nil => intro ctr r hr; simp [runProducts] at hr
  | cons p ps ih =>
    intro ctr r hr
    simp only [runProducts] at hr
    by_cases hth : (processProduct env sw p ctr).thrown
    · rw [if_pos hth] at hr
      simp at hr
    · rw [if_neg hth] at hr
      rcases List.mem_append.mp hr with h1 | h2
      · rcases processProduct_result_shape env sw p ctr with hs | ⟨url, hs⟩
        · rw [hs] at h1; simp at h1
        · rw [hs] at h1
          simp at h1
          exact ⟨p, List.mem_cons_self p ps, by simp [h1]⟩
      · rcases ih _ r h2 with ⟨q, hq, hid⟩
        exact ⟨q, List.mem_cons_of_mem p hq, hid⟩

/-- The (id, name) projection of the loop's accumulated records is an
order-preserving subsequence of the (id, name) projection of the input
products. -/
theorem runProducts_sublist (env : Env) (sw : List Nat) :
    ∀ (ps : List ProductRequest) (ctr : Nat),
      List.Sublist
        ((runProducts env sw ps ctr).results.map
          fun r => (r.productId, r.productName))
        (ps.map fun p => (p.id, p.name)) := by
  intro ps
  induction ps with
  | nil => intro ctr; simp [runProducts]
  | cons p ps ih =>
    intro ctr
    simp only [runProducts, List.map_cons]
    by_cases hth : (processProduct env sw p ctr).thrown
    · rw [if_pos hth]
      simp
    · rw [if_neg hth]
      rcases processProduct_result_shape env sw p ctr with hs | ⟨url, hs⟩
      · rw [hs]
        simpa using (ih _).cons (p.id, p.name)
      · rw [hs]
        simpa using (ih _).cons₂ (p.id, p.name)

/-- A valid `/generateMockups` body answers `mockupUrls` only from the
200 branch, where it is the loop's accumulated record list for the
fetched swapped buffer. -/
theorem generateMockups_mockupUrls_eq (env : Env) (url : Option String)
    (ps : List ProductRequest) (rs : List MockupResult)
    (h : (generateMockups env ⟨url, some ps⟩).mockupUrls = some rs) :
    ∃ sw, rs = (runProducts env sw ps 0).results := by
  cases url with
  | none => simp [generateMockups] at h
  | some u =>
    simp only [generateMockups] at h
    split at h
    · simp at h
    · split at h
      · simp at h
      · split at h
        · simp at h
        · split at h
          · simp at h
          · rename_i sw hsw
            split at h
            · simp at h
            · simp only [GenOutcome.mk.injEq] at h
              exact ⟨sw, (Option.some_inj.mp h).symm⟩

/-- The poll loop performs at most `fuel` attempts and waits at most
`fuel` intervals in total. -/
theorem pollLoop_bound (poll : Nat → TaskStatus) :
    ∀ (fuel i : Nat), (pollLoop poll fuel i).2.1 ≤ fuel ∧
      (pollLoop poll fuel i).2.2 ≤ fuel * pollIntervalMs := by
  intro fuel
  induction fuel with
  | zero => intro i; simp [pollLoop]
  | succ n ih =>
    intro i
    unfold pollLoop
    cases poll i with
    | pending =>
      have h := ih (i + 1)
      simp only [pollIntervalMs] at h ⊢
      omega
    | success u => simp [pollIntervalMs]
    | error => simp [pollIntervalMs]

/-- A task that answers `pending` at every poll yields no result, for
any attempt budget. -/
theorem pollLoop_pending_none (poll : Nat → TaskStatus)
    (h : ∀ i, poll i = TaskStatus.pending) :
    ∀ (fuel i : Nat), (pollLoop poll fuel i).1 = none := by
  intro fuel
  induction fuel with
  | zero => intro i; rfl
  | succ n ih =>
    intro i
    unfold pollLoop
    rw [h i]
    simpa using ih (i + 1)

/-- Number of fetches a `/generateMockups` outcome made for the result
image (fetch-log entries whose purpose is `result`). -/
def resultFetchCount (o : GenOutcome) : Nat :=
  (o.fetchLog.filter fun e => e.1 == FetchPurpose.result).length

/-! ### The claims -/

/-- C1 (corrected): the claim as stated is false — `products: []` is a
truthy array, passes the handler's validation and yields 200 with an
empty `mockupUrls`, as this concrete run shows. -/
theorem c1_counterexample :
    (generateMockups envAllOk ⟨some "https://x/r.jpg", some []⟩).status
        = 200 ∧
    (generateMockups envAllOk ⟨some "https://x/r.jpg", some []⟩).mockupUrls
        = some [] := by
  decide

/-- C1 (amended): a missing/falsy `resultImageUrl` or a missing or
non-array `products` yields 400; `products` equal to the empty list
passes validation, and when the result-image fetch succeeds the
handler answers 200 with an empty `mockupUrls` list. -/
theorem c1_validation (env : Env) (req : GenReq) :
    ((req.resultImageUrl = none ∨ req.resultImageUrl = some "" ∨
        req.products = none) →
      (generateMockups env req).status = 400 ∧
      (generateMockups env req).mockupUrls = none) ∧
    (∀ url resp b, req.resultImageUrl = some url → url ≠ "" →
      req.products = some [] →
      env.fetch url = .ok resp → resp.ok = true → resp.buffer = .ok b →
      generateMockups env req =
        ⟨200, some [], [(FetchPurpose.result, url)]⟩) := by
  obtain ⟨ru, rp⟩ := req
  constructor
  · rintro (h | h | h) <;> subst h
    · simp [generateMockups]
    · cases rp <;> simp [generateMockups]
    · cases ru <;> simp [generateMockups]
  · rintro url resp b h1 h2 h3 h4 h5 h6
    simp only at h1 h3
    subst h1; subst h3
    simp [generateMockups, h2, h4, h5, h6, runProducts]

/-- C1 witness. -/
theorem c1_validation_witness :
    ((generateMockups envAllOk ⟨none, some []⟩).status = 400 ∧
      (generateMockups envAllOk ⟨none, some []⟩).mockupUrls = none) ∧
    generateMockups envAllOk ⟨some "https://x/r.jpg", some []⟩ =
      ⟨200, some [], [(FetchPurpose.result, "https://x/r.jpg")]⟩ := by
  constructor
  · exact (c1_validation envAllOk ⟨none, some []⟩).1 (Or.inl rfl)
  · exact (c1_validation envAllOk ⟨some "https://x/r.jpg", some []⟩).2
      "https://x/r.jpg" ⟨true, .ok ["https://x/r.jpg".length]⟩
      ["https://x/r.jpg".length] rfl (by decide) rfl rfl rfl rfl

/-- C2 (confirmed): on a valid call the result image is fetched
exactly once, whatever the product list — the handler fetches it
before the loop and every fetch inside the loop is a base-image
fetch. -/
theorem c2_single_result_fetch (env : Env) (url : String)
    (products : List ProductRequest) (h : url ≠ "") :
    resultFetchCount (generateMockups env ⟨some url, some products⟩)
      = 1 := by
  have hshape : ∃ tail,
      (generateMockups env ⟨some url, some products⟩).fetchLog =
        (FetchPurpose.result, url) :: tail ∧
      ∀ e ∈ tail, e.1 = FetchPurpose.base := by
    simp only [generateMockups]
    split
    · rename_i hc; exact absurd (by simpa using hc) h
    · split
      · exact ⟨[], rfl, by simp⟩
      · split
        · exact ⟨[], rfl, by simp⟩
        · split
          · exact ⟨[], rfl, by simp⟩
          · rename_i sw hsw
            split
            · exact ⟨_, rfl, runProducts_log_base env sw products 0⟩
            · exact ⟨_, rfl, runProducts_log_base env sw products 0⟩
  obtain ⟨tail, hlog, htail⟩ := hshape
  unfold resultFetchCount
  rw [hlog]
  simp only [List.filter_cons]
  have hnil : tail.filter (fun e => e.1 == FetchPurpose.result) = [] :=
    List.filter_eq_nil_iff.mpr fun e he => by simp [htail e he]
  simp [hnil]

/-- C2 witness. -/
theorem c2_single_result_fetch_witness :
    resultFetchCount (generateMockups envAllOk
      ⟨some "https://x/r.jpg",
        some [⟨1, "T-Shirt", "https://x/shirt.jpg"⟩,
              ⟨2, "Mug", "https://x/mug.jpg"⟩]⟩) = 1 :=
  c2_single_result_fetch envAllOk "https://x/r.jpg" _ (by decide)

/-- C3 (confirmed): a product whose name has no `overlayConfig` entry
is skipped silently — the iteration performs no effect and produces no
record, and the whole response (status, results and fetch log) is the
one the handler gives for the product list without it. -/
theorem c3_unknown_name_skipped (env : Env) (url : Option String)
    (l1 l2 : List ProductRequest) (u : ProductRequest)
    (h : overlayConfig u.name = none) :
    generateMockups env ⟨url, some (l1 ++ u :: l2)⟩ =
      generateMockups env ⟨url, some (l1 ++ l2)⟩ ∧
    ∀ sw ctr, processProduct env sw u ctr = ⟨false, none, [], ctr⟩ := by
  refine ⟨?_, fun sw ctr => processProduct_config_none env sw u ctr h⟩
  cases url with
  | none => rfl
  | some v =>
    simp only [generateMockups, runProducts_middle_skip env u h]

/-- C3 witness. -/
theorem c3_unknown_name_skipped_witness :
    generateMockups envAllOk ⟨some "https://x/r.jpg",
      some ([⟨1, "T-Shirt", "https://x/shirt.jpg"⟩] ++
        ⟨2, "Unknown", "https://x/u.jpg"⟩ :: [])⟩ =
      generateMockups envAllOk ⟨some "https://x/r.jpg",
        some ([⟨1, "T-Shirt", "https://x/shirt.jpg"⟩] ++ [])⟩ ∧
    ∀ sw ctr, processProduct envAllOk sw ⟨2, "Unknown", "https://x/u.jpg"⟩ ctr
      = ⟨false, none, [], ctr⟩ :=
  c3_unknown_name_skipped envAllOk (some "https://x/r.jpg")
    [⟨1, "T-Shirt", "https://x/shirt.jpg"⟩] []
    ⟨2, "Unknown", "https://x/u.jpg"⟩ rfl

/-- C4 (corrected): the claim as stated is false — when one product's
base-image fetch rejects with a transport error (here `Mug`, after
`T-Shirt` succeeded), the exception escapes the loop, the handler
catch answers 500, and no successful subset is returned. -/
theorem c4_counterexample :
    (generateMockups envMugFetchThrows
      ⟨some "https://x/r.jpg",
        some [⟨1, "T-Shirt", "https://x/shirt.jpg"⟩,
              ⟨2, "Mug", "https://x/mug.jpg"⟩]⟩).status = 500 ∧
    (generateMockups envMugFetchThrows
      ⟨some "https://x/r.jpg",
        some [⟨1, "T-Shirt", "https://x/shirt.jpg"⟩,
              ⟨2, "Mug", "https://x/mug.jpg"⟩]⟩).mockupUrls = none := by
  decide

/-- C4 (amended): only a non-2xx base-image response is downgraded to
a skip — removing such a product changes neither status nor results;
a transport error (a rejected fetch promise) escapes the loop and the
whole request answers 500 with no results. -/
theorem c4_base_fetch_failure (env : Env) :
    (∀ (url : Option String) (l1 l2 : List ProductRequest)
        (u : ProductRequest) (cfg : OverlayRule) (resp : FetchResponse),
      overlayConfig u.name = some cfg →
      env.fetch u.baseImageUrl = .ok resp → resp.ok = false →
      (generateMockups env ⟨url, some (l1 ++ u :: l2)⟩).status =
        (generateMockups env ⟨url, some (l1 ++ l2)⟩).status ∧
      (generateMockups env ⟨url, some (l1 ++ u :: l2)⟩).mockupUrls =
        (generateMockups env ⟨url, some (l1 ++ l2)⟩).mockupUrls) ∧
    (∀ (url : String) (u : ProductRequest) (ps : List ProductRequest)
        (cfg : OverlayRule) (resp : FetchResponse) (b : List Nat),
      url ≠ "" →
      env.fetch url = .ok resp → resp.ok = true → resp.buffer = .ok b →
      overlayConfig u.name = some cfg →
      env.fetch u.baseImageUrl = .error () →
      (generateMockups env ⟨some url, some (u :: ps)⟩).status = 500 ∧
      (generateMockups env ⟨some url, some (u :: ps)⟩).mockupUrls
        = none) := by
  constructor
  · intro url l1 l2 u cfg resp hc hf hok
    cases url with
    | none => exact ⟨rfl, rfl⟩
    | some v =>
      have hmid := runProducts_middle_nonok env u cfg resp hc hf hok
      simp only [generateMockups]
      split
      · exact ⟨rfl, rfl⟩
      · split
        · exact ⟨rfl, rfl⟩
        · split
          · exact ⟨rfl, rfl⟩
          · split
            · exact ⟨rfl, rfl⟩
            · rename_i sw hsw
              obtain ⟨hth, hres, hctr⟩ := hmid sw l1 l2 0
              rw [hth, hres]
              by_cases ht : (runProducts env sw (l1 ++ l2) 0).thrown <;>
                simp [ht]
  · intro url u ps cfg resp b hurl hf hok hb hc hbase
    have hstep : processProduct env b u 0 =
        ⟨true, none, [(FetchPurpose.base, u.baseImageUrl)], 0⟩ := by
      unfold processProduct
      rw [hc, hbase]
    have hrun : (runProducts env b (u :: ps) 0).thrown = true := by
      simp [runProducts, hstep]
    constructor <;>
      simp [generateMockups, hurl, hf, hok, hb, hrun]

/-- C4 witness. -/
theorem c4_base_fetch_failure_witness :
    ((generateMockups envMug404
        ⟨some "https://x/r.jpg",
          some ([] ++ ⟨2, "Mug", "https://x/mug.jpg"⟩ ::
            [⟨1, "T-Shirt", "https://x/shirt.jpg"⟩])⟩).status =
      (generateMockups envMug404
        ⟨some "https://x/r.jpg",
          some ([] ++ [⟨1, "T-Shirt", "https://x/shirt.jpg"⟩])⟩).status) ∧
    ((generateMockups envMugFetchThrows
        ⟨some "https://x/r.jpg",
          some (⟨2, "Mug", "https://x/mug.jpg"⟩ ::
            [⟨1, "T-Shirt", "https://x/shirt.jpg"⟩])⟩).status = 500) := by
  constructor
  · exact ((c4_base_fetch_failure envMug404).1 (some "https://x/r.jpg")
      [] [⟨1, "T-Shirt", "https://x/shirt.jpg"⟩]
      ⟨2, "Mug", "https://x/mug.jpg"⟩ ⟨50, 50, 200, 200⟩
      ⟨false, .ok []⟩ rfl rfl rfl).1
  · exact ((c4_base_fetch_failure envMugFetchThrows).2 "https://x/r.jpg"
      ⟨2, "Mug", "https://x/mug.jpg"⟩ [⟨1, "T-Shirt", "https://x/shirt.jpg"⟩]
      ⟨50, 50, 200, 200⟩ ⟨true, .ok ["https://x/r.jpg".length]⟩
      ["https://x/r.jpg".length] (by decide) rfl rfl rfl rfl rfl).1

/-- C5 (corrected): the claim as stated is false — when sharp cannot
decode the shared swapped buffer (the resize step rejects), the
exception escapes the loop on the first product and the whole request
answers 500, with the remaining products never processed. -/
theorem c5_counterexample :
    (generateMockups envResizeThrows
      ⟨some "https://x/r.jpg",
        some [⟨1, "T-Shirt", "https://x/shirt.jpg"⟩,
              ⟨2, "Mug", "https://x/mug.jpg"⟩]⟩).status = 500 ∧
    (generateMockups envResizeThrows
      ⟨some "https://x/r.jpg",
        some [⟨1, "T-Shirt", "https://x/shirt.jpg"⟩,
              ⟨2, "Mug", "https://x/mug.jpg"⟩]⟩).mockupUrls = none := by
  decide

/-- C5 (amended): a decode/geometry failure during compositing (the
sharp resize or composite promise rejecting) is not isolated to the
product: the exception reaches the handler catch and the whole
request answers 500 with no results. -/
theorem c5_composite_failure (env : Env) (url : String)
    (u : ProductRequest) (ps : List ProductRequest) (cfg : OverlayRule)
    (resp : FetchResponse) (b : List Nat) (resp2 : FetchResponse)
    (b2 : List Nat) (hurl : url ≠ "")
    (hf : env.fetch url = .ok resp) (hok : resp.ok = true)
    (hb : resp.buffer = .ok b)
    (hc : overlayConfig u.name = some cfg)
    (hbf : env.fetch u.baseImageUrl = .ok resp2) (hok2 : resp2.ok = true)
    (hb2 : resp2.buffer = .ok b2)
    (hfail : env.resize b cfg.width cfg.height = .error () ∨
      ∀ rz, env.resize b cfg.width cfg.height = .ok rz →
        env.composite b2 rz cfg.y cfg.x = .error ()) :
    (generateMockups env ⟨some url, some (u :: ps)⟩).status = 500 ∧
    (generateMockups env ⟨some url, some (u :: ps)⟩).mockupUrls
      = none := by
  have hstep : (processProduct env b u 0).thrown = true := by
    unfold processProduct
    rw [hc, hbf]
    simp only [hok2, Bool.not_true]
    rw [if_neg (by simp)]
    rw [hb2]
    cases hrz : env.resize b cfg.width cfg.height with
    | error e => rfl
    | ok rz =>
      rcases hfail with hfail | hfail
      · rw [hrz] at hfail; cases hfail
      · simp [hfail rz hrz]
  have hrun : (runProducts env b (u :: ps) 0).thrown = true := by
    simp [runProducts, hstep]
  constructor <;> simp [generateMockups, hurl, hf, hok, hb, hrun]

/-- C5 witness. -/
theorem c5_composite_failure_witness :
    (generateMockups envResizeThrows
      ⟨some "https://x/r.jpg",
        some (⟨1, "T-Shirt", "https://x/shirt.jpg"⟩ :: [])⟩).status = 500 :=
  (c5_composite_failure envResizeThrows "https://x/r.jpg"
    ⟨1, "T-Shirt", "https://x/shirt.jpg"⟩ [] ⟨100, 150, 300, 300⟩
    ⟨true, .ok ["https://x/r.jpg".length]⟩ ["https://x/r.jpg".length]
    ⟨true, .ok ["https://x/shirt.jpg".length]⟩ ["https://x/shirt.jpg".length]
    (by decide) rfl rfl rfl rfl rfl rfl rfl (Or.inl rfl)).1

/-- C6 (confirmed, spec-modelled): the delegated-variant poll loop
performs at most 10 attempts at the fixed 2-second interval (total
wait at most 20000 ms); a task that never reaches a terminal state
yields no result, and the product it belongs to is simply filtered
out of the batch — the other products' outcomes are unchanged. -/
theorem c6_poll_bounded (poll : String → Nat → TaskStatus)
    (p : DelegatedProduct) (l1 l2 : List DelegatedProduct)
    (h : ∀ i, poll p.name i = TaskStatus.pending) :
    (pollLoop (poll p.name) maxPollAttempts 0).2.1 ≤ 10 ∧
    (pollLoop (poll p.name) maxPollAttempts 0).2.2 ≤ 20000 ∧
    renderOutcome poll p = none ∧
    delegatedGenerateMockups poll (l1 ++ p :: l2) =
      delegatedGenerateMockups poll (l1 ++ l2) := by
  have hb := pollLoop_bound (poll p.name) maxPollAttempts 0
  have hn : renderOutcome poll p = none :=
    pollLoop_pending_none (poll p.name) h maxPollAttempts 0
  refine ⟨hb.1, le_trans hb.2 (by norm_num [maxPollAttempts, pollIntervalMs]),
    hn, ?_⟩
  simp [delegatedGenerateMockups, List.filterMap_append, hn]

/-- C6 witness. -/
theorem c6_poll_bounded_witness :
    (pollLoop (fun _ => TaskStatus.pending) maxPollAttempts 0).2.1 ≤ 10 ∧
    (pollLoop (fun _ => TaskStatus.pending) maxPollAttempts 0).2.2 ≤ 20000 ∧
    renderOutcome (fun _ _ => TaskStatus.pending) ⟨2, "Mug"⟩ = none ∧
    delegatedGenerateMockups (fun _ _ => TaskStatus.pending)
        ([⟨1, "T-Shirt"⟩] ++ ⟨2, "Mug"⟩ :: []) =
      delegatedGenerateMockups (fun _ _ => TaskStatus.pending)
        ([⟨1, "T-Shirt"⟩] ++ []) :=
  c6_poll_bounded (fun _ _ => TaskStatus.pending) ⟨2, "Mug"⟩
    [⟨1, "T-Shirt"⟩] [] (fun _ => rfl)

/-- C7 (corrected): the claim as stated is false — a transport error
during the fetch of `resultUrl` (the fetch promise rejecting, as
opposed to a non-2xx response) is caught by the handler catch and
answered 500, not 400. -/
theorem c7_counterexample :
    uploadResult envFetchThrows (some "https://x/r.jpg") = ⟨500, none⟩ := by
  decide

/-- C7 (amended): `/uploadResult` answers 400 when `resultUrl` is
missing or falsy and 400 on a non-2xx fetch response; but a fetch
transport error, a body-buffering failure, or a storage failure are
all caught by the handler catch and answered 500; on success it
answers 200 with the stored image's URL. -/
theorem c7_upload_result_cases (env : Env) :
    (uploadResult env none).status = 400 ∧
    (uploadResult env (some "")).status = 400 ∧
    (∀ url, url ≠ "" → env.fetch url = .error () →
      uploadResult env (some url) = ⟨500, none⟩) ∧
    (∀ url resp, url ≠ "" → env.fetch url = .ok resp → resp.ok = false →
      uploadResult env (some url) = ⟨400, none⟩) ∧
    (∀ url resp, url ≠ "" → env.fetch url = .ok resp → resp.ok = true →
      resp.buffer = .error () →
      uploadResult env (some url) = ⟨500, none⟩) ∧
    (∀ url resp b, url ≠ "" → env.fetch url = .ok resp → resp.ok = true →
      resp.buffer = .ok b →
      env.upload b "result_images" (env.uuid 0) = .error () →
      uploadResult env (some url) = ⟨500, none⟩) ∧
    (∀ url resp b u, url ≠ "" → env.fetch url = .ok resp → resp.ok = true →
      resp.buffer = .ok b →
      env.upload b "result_images" (env.uuid 0) = .ok u →
      uploadResult env (some url) = ⟨200, some u⟩) := by
  refine ⟨rfl, rfl, ?_, ?_, ?_, ?_, ?_⟩
  · intro url hurl hf
    simp [uploadResult, hurl, hf]
  · intro url resp hurl hf hok
    simp [uploadResult, hurl, hf, hok]
  · intro url resp hurl hf hok hb
    simp [uploadResult, hurl, hf, hok, hb]
  · intro url resp b hurl hf hok hb hu
    simp [uploadResult, hurl, hf, hok, hb, hu]
  · intro url resp b u hurl hf hok hb hu
    simp [uploadResult, hurl, hf, hok, hb, hu]

/-- C7 witness. -/
theorem c7_upload_result_cases_witness :
    (uploadResult envAllOk none).status = 400 ∧
    uploadResult envFetchThrows (some "https://x/res.jpg") = ⟨500, none⟩ ∧
    uploadResult envAllOk (some "https://x/res.jpg") =
      ⟨200, some "https://res.cloudinary.com/result_images/uuid0.jpg"⟩ := by
  refine ⟨(c7_upload_result_cases envAllOk).1, ?_, ?_⟩
  · exact (c7_upload_result_cases envFetchThrows).2.2.1 "https://x/res.jpg"
      (by decide) rfl
  · exact (c7_upload_result_cases envAllOk).2.2.2.2.2.2 "https://x/res.jpg"
      ⟨true, .ok ["https://x/res.jpg".length]⟩ ["https://x/res.jpg".length]
      "https://res.cloudinary.com/result_images/uuid0.jpg"
      (by decide) rfl rfl rfl rfl

/-- C8 (confirmed): every record a 200 response carries has the `id`
and `name` of one of the input products, copied through unchanged. -/
theorem c8_id_name_roundtrip (env : Env) (url : Option String)
    (ps : List ProductRequest) (rs : List MockupResult)
    (r : MockupResult)
    (h : (generateMockups env ⟨url, some ps⟩).mockupUrls = some rs)
    (hr : r ∈ rs) :
    ∃ p ∈ ps, r.productId = p.id ∧ r.productName = p.name := by
  obtain ⟨sw, hsw⟩ := generateMockups_mockupUrls_eq env url ps rs h
  exact runProducts_mem env sw ps 0 r (hsw ▸ hr)

/-- C8 witness. -/
theorem c8_id_name_roundtrip_witness :
    ∃ p ∈ [(⟨1, "T-Shirt", "https://x/shirt.jpg"⟩ : ProductRequest),
           ⟨2, "Unknown", "https://x/u.jpg"⟩],
      (⟨1, "T-Shirt", "https://res.cloudinary.com/mockups/uuid0.jpg"⟩ :
        MockupResult).productId = p.id ∧
      (⟨1, "T-Shirt", "https://res.cloudinary.com/mockups/uuid0.jpg"⟩ :
        MockupResult).productName = p.name :=
  c8_id_name_roundtrip envAllOk (some "https://x/r.jpg")
    [⟨1, "T-Shirt", "https://x/shirt.jpg"⟩, ⟨2, "Unknown", "https://x/u.jpg"⟩]
    [⟨1, "T-Shirt", "https://res.cloudinary.com/mockups/uuid0.jpg"⟩]
    ⟨1, "T-Shirt", "https://res.cloudinary.com/mockups/uuid0.jpg"⟩
    (by decide) (by decide)

/-- C9 (confirmed): the loop processes products sequentially in input
order and pushes at most one record per product, so the (id, name)
projection of a 200 response's `mockupUrls` is an order-preserving
subsequence of the (id, name) projection of the input list. -/
theorem c9_order_preserving (env : Env) (url : Option String)
    (ps : List ProductRequest) (rs : List MockupResult)
    (h : (generateMockups env ⟨url, some ps⟩).mockupUrls = some rs) :
    List.Sublist (rs.map fun r => (r.productId, r.productName))
      (ps.map fun p => (p.id, p.name)) := by
  obtain ⟨sw, hsw⟩ := generateMockups_mockupUrls_eq env url ps rs h
  exact hsw ▸ runProducts_sublist env sw ps 0

/-- C9 witness. -/
theorem c9_order_preserving_witness :
    List.Sublist
      (([⟨1, "T-Shirt", "https://res.cloudinary.com/mockups/uuid0.jpg"⟩] :
          List MockupResult).map fun r => (r.productId, r.productName))
      (([⟨1, "T-Shirt", "https://x/shirt.jpg"⟩,
         ⟨2, "Unknown", "https://x/u.jpg"⟩] :
          List ProductRequest).map fun p => (p.id, p.name)) :=
  c9_order_preserving envAllOk (some "https://x/r.jpg")
    [⟨1, "T-Shirt", "https://x/shirt.jpg"⟩, ⟨2, "Unknown", "https://x/u.jpg"⟩]
    [⟨1, "T-Shirt", "https://res.cloudinary.com/mockups/uuid0.jpg"⟩]
    (by decide)

/-- C10 (confirmed): `/upload` persists the target image before
attempting the swap image; if the swap upload fails the endpoint
answers 500 while the target image stays in the blob store — there is
no rollback. -/
theorem c10_no_rollback (env : UploadEnv) (t s : UploadFile)
    (store : List BlobEntry) (tu : String)
    (ht : env.upload "target_images" env.uuidTarget t.bytes = .ok tu)
    (hs : env.upload "swap_images" env.uuidSwap s.bytes = .error ()) :
    (uploadBoth env (some t) (some s) store).status = 500 ∧
    (⟨"target_images", env.uuidTarget, t.bytes⟩ : BlobEntry) ∈
      (uploadBoth env (some t) (some s) store).store := by
  constructor <;> simp [uploadBoth, uploadToStore, ht, hs]

/-- C10 witness. -/
theorem c10_no_rollback_witness :
    (uploadBoth envSwapUploadFails (some ⟨[1]⟩) (some ⟨[2]⟩) []).status
        = 500 ∧
    (⟨"target_images", "tid", [1]⟩ : BlobEntry) ∈
      (uploadBoth envSwapUploadFails (some ⟨[1]⟩) (some ⟨[2]⟩) []).store :=
  c10_no_rollback envSwapUploadFails ⟨[1]⟩ ⟨[2]⟩ []
    "https://res.cloudinary.com/target_images/tid.jpg" rfl rfl

end SelfieBackend
